import Mathlib

/-!
A shallow embedding of the inventory-ledger core of the "EZ Inventory"
application, together with proofs about it.

The embedding follows the TypeScript source:
* `src/lib/types.ts` (data model: `Warehouse`, `Item`, `HistoryEntry`,
  `ArchivedReport`, `FlattenedHistoryEntry`),
* `src/app/(main)/warehouses/[warehouseId]/page.tsx`
  (`onAddItemSubmit`, `onStockAdjustmentSubmit`, `handlePrintReport`),
* the reports page (`ReportsPage.loadData` flattening, the filter effect,
  `handlePrintArchivedReport`),
* the warehouse list page (`handleArchiveWarehouse`,
  `handlePrintWarehouseReport`).

Modelling conventions:
* ISO timestamp strings are modelled as integer milliseconds since the epoch
  (`new Date(s).getTime()` is a monotone embedding of the ISO strings the code
  produces, and all comparisons in the code go through `getTime()`).
* Calendar dates chosen in the date pickers are modelled as local calendar day
  numbers; `setHours(0,0,0,0)` / `setHours(23,59,59,999)` become
  `startOfDayMs` / `endOfDayMs`.
* Optional / possibly-`undefined` TS fields become `Option`; JS string
  truthiness (`""` and `undefined` are falsy) is modelled explicitly.
* Firestore's `updateDoc` payload for a stock adjustment is modelled as an
  explicit `ItemUpdatePayload` record, mirroring that the code persists the new
  quantity and the appended ledger entry in one single update call.
* Firestore's `arrayUnion` adds the element only when it is not already
  present; this is modelled faithfully.
* `ownerId` fields are irrelevant to every claim and are omitted.
-/

/-- `HistoryEntryType` from `src/lib/types.ts`. -/
inductive HistoryEntryType where
  | CREATE_ITEM
  | ADD_STOCK
  | CONSUME_STOCK
  | ADJUST_STOCK
  | CREATE_WAREHOUSE
  | UPDATE_WAREHOUSE
  | DELETE_WAREHOUSE
deriving DecidableEq, Repr

/-- `HistoryEntry` from `src/lib/types.ts`; `timestamp` is epoch milliseconds. -/
structure HistoryEntry where
  id : String
  type : HistoryEntryType
  change : Int
  quantityBefore : Int
  quantityAfter : Int
  comment : Option String
  timestamp : Int
deriving DecidableEq, Repr

/-- `Item` from `src/lib/types.ts` (without `ownerId`, unused by the claims). -/
structure Item where
  id : String
  warehouseId : String
  name : String
  quantity : Int
  location : Option String
  createdAt : Int
  updatedAt : Int
  history : List HistoryEntry
  isArchived : Bool
deriving DecidableEq, Repr

/-- `Warehouse` from `src/lib/types.ts` (without `ownerId`). -/
structure Warehouse where
  id : String
  name : String
  description : Option String
  isArchived : Bool
  createdAt : Int
  updatedAt : Int
deriving DecidableEq, Repr

/-- Values of the add-item form on the warehouse detail page. -/
structure ItemFormValues where
  name : String
  quantity : Int
  location : Option String
deriving DecidableEq, Repr

/-- `itemFormSchema`: name at least 2 characters, quantity a non-negative
integer (already an `Int` in the model, so only the bound remains). -/
def itemFormValid (d : ItemFormValues) : Prop :=
  2 ≤ d.name.length ∧ 0 ≤ d.quantity

instance (d : ItemFormValues) : Decidable (itemFormValid d) := by
  unfold itemFormValid; infer_instance

/-- Values of the stock-adjustment form. -/
structure StockAdjustmentFormValues where
  adjustmentQuantity : Int
  comment : Option String
deriving DecidableEq, Repr

/-- `stockAdjustmentFormSchema`: the adjustment quantity is a positive
integer. -/
def stockAdjustmentFormValid (d : StockAdjustmentFormValues) : Prop :=
  0 < d.adjustmentQuantity

instance (d : StockAdjustmentFormValues) : Decidable (stockAdjustmentFormValid d) := by
  unfold stockAdjustmentFormValid; infer_instance

/-- The two adjustment kinds offered by the dialog on the warehouse detail
page (`adjustmentType` state). -/
inductive AdjustmentType where
  | ADD_STOCK
  | CONSUME_STOCK
deriving DecidableEq, Repr

/-- The ledger entry type recorded for an adjustment. -/
def AdjustmentType.toHistoryType : AdjustmentType → HistoryEntryType
  | .ADD_STOCK => .ADD_STOCK
  | .CONSUME_STOCK => .CONSUME_STOCK

/-- The validation failure raised when consuming more than available stock;
it carries the available quantity shown in the form error message
`Cannot consume more than available stock (...)`. -/
inductive StockError where
  | negativeStock (available : Int)
deriving DecidableEq, Repr

/-- Firestore `arrayUnion`: appends the element unless it is already present. -/
def arrayUnion (l : List HistoryEntry) (e : HistoryEntry) : List HistoryEntry :=
  if e ∈ l then l else l ++ [e]

/-- The single `updateDoc` payload issued by `onStockAdjustmentSubmit`:
`{ quantity, updatedAt, history: arrayUnion(newHistoryEntry) }`. -/
structure ItemUpdatePayload where
  quantity : Int
  updatedAt : Int
  newHistoryEntry : HistoryEntry
deriving DecidableEq, Repr

/-- Applying the update payload to the stored item record. -/
def applyItemUpdate (item : Item) (p : ItemUpdatePayload) : Item :=
  { item with
    quantity := p.quantity
    updatedAt := p.updatedAt
    history := arrayUnion item.history p.newHistoryEntry }

/-- `onAddItemSubmit` from the warehouse detail page: builds the initial
`CREATE_ITEM` ledger entry and the new item document.  `now` is the current
time in epoch milliseconds (`Date.now()` for the entry id, `new Date()` for the
timestamp, `serverTimestamp()` for `createdAt`/`updatedAt`); `docId` is the
Firestore-generated document id. -/
def onAddItemSubmit (warehouseId : String) (data : ItemFormValues)
    (now : Int) (docId : String) : Item :=
  let initialHistoryEntry : HistoryEntry :=
    { id := toString now ++ "-hist-create"
      type := .CREATE_ITEM
      change := data.quantity
      quantityBefore := 0
      quantityAfter := data.quantity
      timestamp := now
      comment := some "Initial item creation" }
  { id := docId
    warehouseId := warehouseId
    name := data.name
    quantity := data.quantity
    location := some ((data.location.getD ""))
    createdAt := now
    updatedAt := now
    history := [initialHistoryEntry]
    isArchived := false }

/-- `onStockAdjustmentSubmit` from the warehouse detail page.  Computes the
signed `quantityChange`, rejects an over-consumption before any write (the
`setError` path returns without touching Firestore), and otherwise issues one
`updateDoc` call whose payload carries the new quantity, the refreshed
`updatedAt`, and the appended ledger entry. -/
def onStockAdjustmentSubmit (item : Item) (adjustmentType : AdjustmentType)
    (data : StockAdjustmentFormValues) (now : Int) :
    Except StockError ItemUpdatePayload :=
  let quantityChange : Int :=
    match adjustmentType with
    | .ADD_STOCK => data.adjustmentQuantity
    | .CONSUME_STOCK => -data.adjustmentQuantity
  if adjustmentType = .CONSUME_STOCK ∧ item.quantity < data.adjustmentQuantity then
    Except.error (StockError.negativeStock item.quantity)
  else
    let newHistoryEntry : HistoryEntry :=
      { id := toString now ++ "-hist-adjust"
        type := adjustmentType.toHistoryType
        change := quantityChange
        quantityBefore := item.quantity
        quantityAfter := item.quantity + quantityChange
        timestamp := now
        comment := some (match data.comment with
          | some s =>
            if s = "" then
              (match adjustmentType with
               | .ADD_STOCK => "Stock added"
               | .CONSUME_STOCK => "Stock consumed")
            else s
          | none =>
            (match adjustmentType with
             | .ADD_STOCK => "Stock added"
             | .CONSUME_STOCK => "Stock consumed")) }
    Except.ok
      { quantity := item.quantity + quantityChange
        updatedAt := now
        newHistoryEntry := newHistoryEntry }

/-- Replaying a ledger from 0 by summing the `change` values. -/
def replayLedger (history : List HistoryEntry) : Int :=
  history.foldl (fun acc e => acc + e.change) 0

/-- Items reachable through the public interface: creation via the validated
add-item form, followed by any number of successful validated stock
adjustments.  The freshness hypothesis on the generated entry id reflects that
`Date.now().toString() + '-hist-adjust'` never repeats an id already in the
ledger (ids are minted from the strictly increasing wall clock). -/
inductive ReachableItem : Item → Prop where
  | create (warehouseId : String) (data : ItemFormValues) (now : Int) (docId : String)
      (hvalid : itemFormValid data) :
      ReachableItem (onAddItemSubmit warehouseId data now docId)
  | adjust (item : Item) (adjustmentType : AdjustmentType)
      (data : StockAdjustmentFormValues) (now : Int) (p : ItemUpdatePayload)
      (hr : ReachableItem item)
      (hvalid : stockAdjustmentFormValid data)
      (hfresh : (toString now ++ "-hist-adjust") ∉ item.history.map (fun e => e.id))
      (hok : onStockAdjustmentSubmit item adjustmentType data now = Except.ok p) :
      ReachableItem (applyItemUpdate item p)

theorem replayLedger_append (l : List HistoryEntry) (e : HistoryEntry) :
    replayLedger (l ++ [e]) = replayLedger l + e.change := by
  unfold replayLedger
  rw [List.foldl_append]
  rfl

/-- The local `quantityChange` computed by `onStockAdjustmentSubmit`. -/
def quantityChange (adjustmentType : AdjustmentType)
    (data : StockAdjustmentFormValues) : Int :=
  match adjustmentType with
  | .ADD_STOCK => data.adjustmentQuantity
  | .CONSUME_STOCK => -data.adjustmentQuantity

/-- On success the adjustment payload appends an entry with the generated id,
whose bookkeeping fields are determined by the current quantity and the
delta. -/
theorem onStockAdjustmentSubmit_ok (item : Item) (adjustmentType : AdjustmentType)
    (data : StockAdjustmentFormValues) (now : Int) (p : ItemUpdatePayload)
    (hok : onStockAdjustmentSubmit item adjustmentType data now = Except.ok p) :
    p.newHistoryEntry.id = toString now ++ "-hist-adjust" ∧
    p.newHistoryEntry.type = adjustmentType.toHistoryType ∧
    p.newHistoryEntry.change = quantityChange adjustmentType data ∧
    p.newHistoryEntry.quantityBefore = item.quantity ∧
    p.newHistoryEntry.quantityAfter = item.quantity + quantityChange adjustmentType data ∧
    p.newHistoryEntry.timestamp = now ∧
    p.quantity = item.quantity + quantityChange adjustmentType data ∧
    p.updatedAt = now := by
  cases adjustmentType with
  | ADD_STOCK =>
    simp only [onStockAdjustmentSubmit] at hok
    rw [if_neg (by simp)] at hok
    injection hok with h
    subst h
    exact ⟨rfl, rfl, rfl, rfl, rfl, rfl, rfl, rfl⟩
  | CONSUME_STOCK =>
    simp only [onStockAdjustmentSubmit] at hok
    split at hok
    · exact absurd hok (by simp)
    · injection hok with h
      subst h
      exact ⟨rfl, rfl, rfl, rfl, rfl, rfl, rfl, rfl⟩

/-- Items reachable through the validated public interface keep a non-negative
quantity: a key step lemma — a successful consume implies the guard let it
through, so the amount was at most the available quantity. -/
theorem consume_ok_le (item : Item) (data : StockAdjustmentFormValues) (now : Int)
    (p : ItemUpdatePayload)
    (hok : onStockAdjustmentSubmit item .CONSUME_STOCK data now = Except.ok p) :
    data.adjustmentQuantity ≤ item.quantity := by
  simp only [onStockAdjustmentSubmit] at hok
  split at hok
  · exact absurd hok (by simp)
  · rename_i hcond
    by_contra hlt
    exact hcond ⟨by trivial, by omega⟩

/-- A sample item as created through the add-item form: "Bolts", initial
quantity 5, created at time 1000. -/
def sampleItem0 : Item := onAddItemSubmit "w1" ⟨"Bolts", 5, none⟩ 1000 "i1"

/-- The payload produced by adding 3 units to `sampleItem0` at time 2000. -/
def sampleAddPayload : ItemUpdatePayload :=
  { quantity := 8
    updatedAt := 2000
    newHistoryEntry :=
      { id := "2000-hist-adjust"
        type := .ADD_STOCK
        change := 3
        quantityBefore := 5
        quantityAfter := 8
        comment := some "Stock added"
        timestamp := 2000 } }

/-- `sampleItem0` after the ADD_STOCK adjustment of 3 units. -/
def sampleItem1 : Item := applyItemUpdate sampleItem0 sampleAddPayload

/-- The payload produced by consuming 3 units from `sampleItem0` at time
3000. -/
def sampleConsumePayload : ItemUpdatePayload :=
  { quantity := 2
    updatedAt := 3000
    newHistoryEntry :=
      { id := "3000-hist-adjust"
        type := .CONSUME_STOCK
        change := -3
        quantityBefore := 5
        quantityAfter := 2
        comment := some "Stock consumed"
        timestamp := 3000 } }

/-- C1: a CONSUME_STOCK adjustment whose magnitude exceeds the current
quantity (the delta `-adjustmentQuantity` is negative and its absolute value
exceeds `item.quantity`) is rejected with a validation error that carries the
available quantity, and no update payload is produced — the item's quantity is
unchanged and no ledger entry is appended, because the only write path is the
`Except.ok` payload. -/
theorem consume_exceeding_stock_rejected (item : Item)
    (data : StockAdjustmentFormValues) (now : Int)
    (hvalid : stockAdjustmentFormValid data)
    (hover : item.quantity < data.adjustmentQuantity) :
    quantityChange .CONSUME_STOCK data < 0 ∧
    item.quantity < |quantityChange .CONSUME_STOCK data| ∧
    onStockAdjustmentSubmit item .CONSUME_STOCK data now =
      Except.error (StockError.negativeStock item.quantity) := by
  unfold stockAdjustmentFormValid at hvalid
  refine ⟨by simp only [quantityChange]; omega, ?_, ?_⟩
  · simp only [quantityChange, abs_neg]
    rw [abs_of_pos hvalid]
    exact hover
  · simp only [onStockAdjustmentSubmit]
    rw [if_pos ⟨by trivial, hover⟩]

/-- C1 witness: current quantity 5, consuming 7 is rejected with the available
quantity 5 in the error. -/
theorem consume_exceeding_stock_rejected_witness :
    stockAdjustmentFormValid ⟨7, none⟩ ∧
    sampleItem0.quantity < (7 : Int) ∧
    (quantityChange .CONSUME_STOCK ⟨7, none⟩ < 0 ∧
     sampleItem0.quantity < |quantityChange .CONSUME_STOCK ⟨7, none⟩| ∧
     onStockAdjustmentSubmit sampleItem0 .CONSUME_STOCK ⟨7, none⟩ 4000 =
       Except.error (StockError.negativeStock 5)) :=
  ⟨by decide, by decide,
    consume_exceeding_stock_rejected sampleItem0 ⟨7, none⟩ 4000 (by decide) (by decide)⟩

/-- C2: for every item reachable through the mutation engine, replaying the
ledger from 0 and summing the `change` values yields exactly the stored
`quantity`. -/
theorem ledger_replay_reconciles (item : Item) (hr : ReachableItem item) :
    replayLedger item.history = item.quantity := by
  induction hr with
  | create warehouseId data now docId hvalid =>
    simp [onAddItemSubmit, replayLedger]
  | adjust item adjustmentType data now p hr hvalid hfresh hok ih =>
    obtain ⟨hid, -, hchange, -, -, -, hq, -⟩ :=
      onStockAdjustmentSubmit_ok _ _ _ _ _ hok
    have hnotmem : p.newHistoryEntry ∉ item.history := by
      intro hmem
      exact hfresh (hid ▸ List.mem_map_of_mem (fun e => e.id) hmem)
    show replayLedger (arrayUnion item.history p.newHistoryEntry) = p.quantity
    rw [arrayUnion, if_neg hnotmem, replayLedger_append, ih, hchange, hq]

/-- C2 witness: creating "Bolts" with quantity 5 and then adding 3 yields a
ledger whose replayed sum equals the stored quantity. -/
theorem ledger_replay_reconciles_witness :
    replayLedger sampleItem1.history = sampleItem1.quantity :=
  ledger_replay_reconciles sampleItem1
    (ReachableItem.adjust sampleItem0 .ADD_STOCK ⟨3, none⟩ 2000 sampleAddPayload
      (ReachableItem.create "w1" ⟨"Bolts", 5, none⟩ 1000 "i1" (by decide))
      (by decide) (by decide) (by rfl))

/-- C3: every successful stock adjustment produces one single update payload
that carries together the new quantity and the appended `HistoryEntry`, whose
fields are `quantityBefore = q`, `quantityAfter = q + delta`, `change = delta`,
the freshly generated id and the current timestamp; in particular
`quantityAfter = quantityBefore + change` holds for the written entry. -/
theorem stock_adjustment_single_update (item : Item)
    (adjustmentType : AdjustmentType) (data : StockAdjustmentFormValues)
    (now : Int) (p : ItemUpdatePayload)
    (hok : onStockAdjustmentSubmit item adjustmentType data now = Except.ok p) :
    p.newHistoryEntry.quantityBefore = item.quantity ∧
    p.newHistoryEntry.quantityAfter = item.quantity + quantityChange adjustmentType data ∧
    p.newHistoryEntry.change = quantityChange adjustmentType data ∧
    p.newHistoryEntry.quantityAfter =
      p.newHistoryEntry.quantityBefore + p.newHistoryEntry.change ∧
    p.newHistoryEntry.id = toString now ++ "-hist-adjust" ∧
    p.newHistoryEntry.timestamp = now ∧
    p.quantity = item.quantity + quantityChange adjustmentType data ∧
    p.updatedAt = now := by
  obtain ⟨hid, -, hchange, hbefore, hafter, hts, hq, hupd⟩ :=
    onStockAdjustmentSubmit_ok _ _ _ _ _ hok
  exact ⟨hbefore, hafter, hchange, by rw [hbefore, hafter, hchange], hid, hts, hq, hupd⟩

/-- C3 witness: consuming 3 of 5 units produces the single payload with the
expected entry fields. -/
theorem stock_adjustment_single_update_witness :
    sampleConsumePayload.newHistoryEntry.quantityBefore = sampleItem0.quantity ∧
    sampleConsumePayload.newHistoryEntry.quantityAfter =
      sampleItem0.quantity + quantityChange .CONSUME_STOCK ⟨3, none⟩ ∧
    sampleConsumePayload.newHistoryEntry.change = quantityChange .CONSUME_STOCK ⟨3, none⟩ ∧
    sampleConsumePayload.newHistoryEntry.quantityAfter =
      sampleConsumePayload.newHistoryEntry.quantityBefore +
        sampleConsumePayload.newHistoryEntry.change ∧
    sampleConsumePayload.newHistoryEntry.id = toString (3000 : Int) ++ "-hist-adjust" ∧
    sampleConsumePayload.newHistoryEntry.timestamp = 3000 ∧
    sampleConsumePayload.quantity =
      sampleItem0.quantity + quantityChange .CONSUME_STOCK ⟨3, none⟩ ∧
    sampleConsumePayload.updatedAt = 3000 :=
  stock_adjustment_single_update sampleItem0 .CONSUME_STOCK ⟨3, none⟩ 3000
    sampleConsumePayload (by rfl)

/-- C4: an item created with initial quantity N has stored quantity N and a
ledger of exactly one CREATE_ITEM entry with `quantityBefore = 0`,
`quantityAfter = N`, `change = N`. -/
theorem create_item_initial_ledger (warehouseId : String) (data : ItemFormValues)
    (now : Int) (docId : String) :
    (onAddItemSubmit warehouseId data now docId).quantity = data.quantity ∧
    (onAddItemSubmit warehouseId data now docId).history.map
        (fun e => (e.type, e.change, e.quantityBefore, e.quantityAfter)) =
      [(HistoryEntryType.CREATE_ITEM, data.quantity, 0, data.quantity)] :=
  ⟨rfl, rfl⟩

/-- C9: every item reachable through the validated public interface has a
non-negative quantity. -/
theorem reachable_quantity_nonneg (item : Item) (hr : ReachableItem item) :
    0 ≤ item.quantity := by
  induction hr with
  | create warehouseId data now docId hvalid =>
    exact hvalid.2
  | adjust item adjustmentType data now p hr hvalid hfresh hok ih =>
    unfold stockAdjustmentFormValid at hvalid
    obtain ⟨-, -, -, -, -, -, hq, -⟩ := onStockAdjustmentSubmit_ok _ _ _ _ _ hok
    show 0 ≤ p.quantity
    cases adjustmentType with
    | ADD_STOCK =>
      simp only [quantityChange] at hq
      omega
    | CONSUME_STOCK =>
      have hle := consume_ok_le item data now p hok
      simp only [quantityChange] at hq
      omega

/-- C9 witness: consuming 3 of the 5 available units leaves the non-negative
quantity 2. -/
theorem reachable_quantity_nonneg_witness :
    0 ≤ (applyItemUpdate sampleItem0 sampleConsumePayload).quantity :=
  reachable_quantity_nonneg (applyItemUpdate sampleItem0 sampleConsumePayload)
    (ReachableItem.adjust sampleItem0 .CONSUME_STOCK ⟨3, none⟩ 3000 sampleConsumePayload
      (ReachableItem.create "w1" ⟨"Bolts", 5, none⟩ 1000 "i1" (by decide))
      (by decide) (by decide) (by rfl))

/-- `FlattenedHistoryEntry` from `src/lib/types.ts`: a `HistoryEntry` widened
with the denormalized item and warehouse name and id. -/
structure FlattenedHistoryEntry extends HistoryEntry where
  itemName : String
  warehouseName : String
  itemId : String
  warehouseId : String
deriving DecidableEq, Repr

/-- The widening performed inside the flattening loop of
`ReportsPage.loadData`: `{ ...entry, itemName, itemId, warehouseName,
warehouseId }`. -/
def widenEntry (item : Item) (warehouse : Warehouse)
    (e : HistoryEntry) : FlattenedHistoryEntry :=
  { toHistoryEntry := e
    itemName := item.name
    itemId := item.id
    warehouseName := warehouse.name
    warehouseId := warehouse.id }

/-- The flattening loop of `ReportsPage.loadData`: for each item, look up its
parent warehouse among the loaded warehouses and, when present, push one
widened entry per ledger entry; items with a missing parent warehouse are
skipped. -/
def flattenLoop (items : List Item) (warehouses : List Warehouse) :
    List FlattenedHistoryEntry :=
  items.foldl (fun flattened item =>
    match warehouses.find? (fun wh => wh.id == item.warehouseId) with
    | some warehouse => flattened ++ item.history.map (widenEntry item warehouse)
    | none => flattened) []

/-- The sort comparator of `ReportsPage.loadData`:
`(a, b) => b.timestamp - a.timestamp`, i.e. descending by timestamp. -/
def tsDescending (a b : FlattenedHistoryEntry) : Bool :=
  b.timestamp ≤ a.timestamp

/-- `ReportsPage.loadData`'s flattened transaction list: the flattening loop
followed by the descending-timestamp sort. -/
def loadDataTransactions (items : List Item) (warehouses : List Warehouse) :
    List FlattenedHistoryEntry :=
  (flattenLoop items warehouses).mergeSort tsDescending

/-- The flattening step as the spec describes it: one widened entry per ledger
entry of every item whose parent warehouse is in the loaded set, and nothing
for an item whose parent warehouse is missing.  Written from the spec's words
for the refinement comparison with `flattenLoop`. -/
def specFlattenedEntries (items : List Item) (warehouses : List Warehouse) :
    List FlattenedHistoryEntry :=
  items.flatMap (fun item =>
    match warehouses.find? (fun wh => wh.id == item.warehouseId) with
    | some warehouse => item.history.map (widenEntry item warehouse)
    | none => [])

theorem flattenLoop_go (warehouses : List Warehouse) :
    ∀ (items : List Item) (acc : List FlattenedHistoryEntry),
      items.foldl (fun flattened item =>
        match warehouses.find? (fun wh => wh.id == item.warehouseId) with
        | some warehouse => flattened ++ item.history.map (widenEntry item warehouse)
        | none => flattened) acc = acc ++ specFlattenedEntries items warehouses
  | [], acc => by simp [specFlattenedEntries]
  | item :: items, acc => by
    simp only [List.foldl_cons, specFlattenedEntries, List.flatMap_cons]
    rw [flattenLoop_go warehouses items]
    cases warehouses.find? (fun wh => wh.id == item.warehouseId) with
    | some warehouse => simp [specFlattenedEntries, List.append_assoc]
    | none => simp [specFlattenedEntries]

theorem flattenLoop_eq_spec (items : List Item) (warehouses : List Warehouse) :
    flattenLoop items warehouses = specFlattenedEntries items warehouses := by
  rw [flattenLoop, flattenLoop_go warehouses items]
  rfl

/-- C5: the flattened transaction list is a permutation of the spec's join
(one widened entry per ledger entry of each item whose parent warehouse is
loaded; items with a missing warehouse contribute nothing), and it is sorted
descending by timestamp. -/
theorem flattening_spec (items : List Item) (warehouses : List Warehouse) :
    (loadDataTransactions items warehouses).Perm
        (specFlattenedEntries items warehouses) ∧
    (loadDataTransactions items warehouses).Pairwise
        (fun a b => tsDescending a b) := by
  constructor
  · rw [loadDataTransactions, flattenLoop_eq_spec]
    exact List.mergeSort_perm _ _
  · exact List.sorted_mergeSort
      (fun a b c hab hbc => by
        simp only [tsDescending, decide_eq_true_eq] at hab hbc ⊢
        omega)
      (fun a b => by
        simp only [tsDescending, Bool.or_eq_true, decide_eq_true_eq]
        omega)
      (flattenLoop items warehouses)

/-- The filter state of the reports page: warehouse and item selection (the
"all" placeholder select values are `none`) and optional start/end dates.
Dates picked in the calendar are modelled as local calendar day numbers. -/
structure ReportFilters where
  selectedWarehouseId : Option String
  selectedItemId : Option String
  startDate : Option Int
  endDate : Option Int
deriving DecidableEq, Repr

/-- Milliseconds per day. -/
def msPerDay : Int := 86400000

/-- `setHours(0, 0, 0, 0)` on the picked date: local midnight of that day. -/
def startOfDayMs (day : Int) : Int := day * msPerDay

/-- `setHours(23, 59, 59, 999)` on the picked date: the last millisecond of
that local day. -/
def endOfDayMs (day : Int) : Int := day * msPerDay + 86399999

/-- The filter effect of the reports page: starting from the full flattened
list, it applies the warehouse filter (with a nested item filter when a
warehouse is selected), an item-only filter when no warehouse is selected,
then the start-date filter, then the end-date filter. -/
def filterTransactions (allFlattenedTransactions : List FlattenedHistoryEntry)
    (f : ReportFilters) : List FlattenedHistoryEntry :=
  let t1 :=
    match f.selectedWarehouseId with
    | some wid =>
      let tw := allFlattenedTransactions.filter (fun t => t.warehouseId == wid)
      match f.selectedItemId with
      | some iid => tw.filter (fun t => t.itemId == iid)
      | none => tw
    | none =>
      match f.selectedItemId with
      | some iid => allFlattenedTransactions.filter (fun t => t.itemId == iid)
      | none => allFlattenedTransactions
  let t2 :=
    match f.startDate with
    | some sd => t1.filter (fun t => startOfDayMs sd ≤ t.timestamp)
    | none => t1
  match f.endDate with
  | some ed => t2.filter (fun t => t.timestamp ≤ endOfDayMs ed)
  | none => t2

/-- A sample entry timestamped 2024-01-10T23:59:00 local time: day 19732
since the epoch, 23 h 59 min into the day. -/
def entryEndOfDay : FlattenedHistoryEntry :=
  { id := "e1"
    type := .ADD_STOCK
    change := 1
    quantityBefore := 0
    quantityAfter := 1
    comment := none
    timestamp := 19732 * 86400000 + 86340000
    itemName := "Bolts"
    warehouseName := "Main"
    itemId := "i1"
    warehouseId := "w1" }

/-- A sample entry timestamped 2024-01-11T00:00:01 local time. -/
def entryNextDay : FlattenedHistoryEntry :=
  { id := "e2"
    type := .CONSUME_STOCK
    change := -1
    quantityBefore := 1
    quantityAfter := 0
    comment := none
    timestamp := 19733 * 86400000 + 1000
    itemName := "Bolts"
    warehouseName := "Main"
    itemId := "i1"
    warehouseId := "w1" }

/-- C6: with only date filters set, an entry is retained exactly when its
timestamp is at least the start date's local midnight (when a start date is
set) and at most the last millisecond of the end date (when an end date is
set); in particular, with start and end both 2024-01-10, an entry at
2024-01-10T23:59:00 is kept and one at 2024-01-11T00:00:01 is dropped. -/
theorem date_filter_day_inclusive (allFlattenedTransactions : List FlattenedHistoryEntry)
    (osd oed : Option Int) :
    filterTransactions allFlattenedTransactions ⟨none, none, osd, oed⟩ =
      allFlattenedTransactions.filter (fun t =>
        (match osd with
         | some sd => decide (startOfDayMs sd ≤ t.timestamp)
         | none => true) &&
        (match oed with
         | some ed => decide (t.timestamp ≤ endOfDayMs ed)
         | none => true)) ∧
    entryEndOfDay ∈
      filterTransactions [entryEndOfDay, entryNextDay] ⟨none, none, some 19732, some 19732⟩ ∧
    entryNextDay ∉
      filterTransactions [entryEndOfDay, entryNextDay] ⟨none, none, some 19732, some 19732⟩ := by
  refine ⟨?_, by decide, by decide⟩
  cases osd with
  | none =>
    cases oed with
    | none => simp [filterTransactions]
    | some ed => simp [filterTransactions]
  | some sd =>
    cases oed with
    | none => simp [filterTransactions]
    | some ed =>
      simp only [filterTransactions, List.filter_filter]
      exact List.filter_congr (fun t ht => by rw [Bool.and_comm])

/-- The `reportType` values of `ArchivedReport`. -/
inductive ReportType where
  | ITEM
  | WAREHOUSE
  | TRANSACTIONS
deriving DecidableEq, Repr

/-- One `{ name, quantity }` row of a WAREHOUSE report's items snapshot. -/
structure ItemSummary where
  name : String
  quantity : Int
deriving DecidableEq, Repr

/-- `ArchivedReport` from `src/lib/types.ts`; every field that is optional in
TS is an `Option` here. -/
structure ArchivedReport where
  id : String
  reportType : Option ReportType
  warehouseId : Option String
  warehouseName : Option String
  warehouseDescription : Option String
  itemId : Option String
  itemName : Option String
  printedBy : String
  printedAt : Int
  historySnapshot : Option (List HistoryEntry)
  itemsSnapshot : Option (List ItemSummary)
  transactionsSnapshot : Option (List FlattenedHistoryEntry)
  reportTitleSnapshot : Option String
deriving DecidableEq, Repr

/-- The archiving step of `handlePrintReport` on the warehouse detail page:
the ITEM report stored to `localStorage`, whose `historySnapshot` is a deep
copy of the printed item's ledger in its stored (chronological, oldest-first)
order. -/
def handlePrintReportArchive (warehouse : Warehouse) (itemToPrint : Item)
    (now : Int) : ArchivedReport :=
  { id := itemToPrint.id ++ "-" ++ toString now
    reportType := some .ITEM
    warehouseId := some warehouse.id
    warehouseName := some warehouse.name
    warehouseDescription := none
    itemId := some itemToPrint.id
    itemName := some itemToPrint.name
    printedBy := "Admin User"
    printedAt := now
    historySnapshot := some itemToPrint.history
    itemsSnapshot := none
    transactionsSnapshot := none
    reportTitleSnapshot := none }

/-- The ITEM branch of `handlePrintArchivedReport` on the reports page: when
the report is an ITEM report with truthy `itemId`, `itemName` and a present
`historySnapshot` (JS truthiness: an empty string fails the guard, an empty
array passes), it synthesizes the transient item view rendered for the
reprint; any other shape falls through to the error path (`none`). -/
def reconstructItemView (report : ArchivedReport) : Option Item :=
  match report.reportType, report.itemId, report.itemName, report.historySnapshot with
  | some .ITEM, some itemId, some itemName, some snap =>
    if itemId == "" || itemName == "" then none
    else some
      { id := itemId
        warehouseId := report.warehouseId.getD ""
        name := itemName
        quantity := match snap.head? with
          | some e => e.quantityAfter
          | none => 0
        location := none
        createdAt := match snap.getLast? with
          | some e => e.timestamp
          | none => report.printedAt
        updatedAt := match snap.head? with
          | some e => e.timestamp
          | none => report.printedAt
        history := snap
        isArchived := true }
  | _, _, _, _ => none

/-- The initial CREATE_ITEM entry of `sampleItem0` (quantity 5 at time 1000). -/
def sampleCreateEntry : HistoryEntry :=
  { id := "1000-hist-create"
    type := .CREATE_ITEM
    change := 5
    quantityBefore := 0
    quantityAfter := 5
    comment := some "Initial item creation"
    timestamp := 1000 }

/-- The ADD_STOCK entry appended to `sampleItem0` (now quantity 8, time 2000). -/
def sampleAddEntry : HistoryEntry := sampleAddPayload.newHistoryEntry

/-- The warehouse "Main" used by the sample runs. -/
def sampleWarehouse : Warehouse :=
  { id := "w1"
    name := "Main"
    description := none
    isArchived := false
    createdAt := 0
    updatedAt := 0 }

/-- The ITEM report archived by printing `sampleItem1` at time 5000. -/
def sampleItemReport : ArchivedReport :=
  handlePrintReportArchive sampleWarehouse sampleItem1 5000

/-- C7 counterexample: for the report archived from an item with ledger
[create@1000 → 5, add@2000 → 8] (stored oldest first, as `handlePrintReport`
stores it), the snapshot's most recent entry is the ADD_STOCK entry with
`quantityAfter = 8` and timestamp 2000, yet the reconstructed view has
`quantity = 5` (the oldest entry's `quantityAfter`), `createdAt = 2000` (the
newest entry's timestamp, not the oldest's 1000) and `updatedAt = 1000` (the
oldest entry's timestamp, not the newest's 2000) — the opposite of the
claim. -/
theorem reconstruct_item_view_counterexample :
    sampleItemReport.historySnapshot = some [sampleCreateEntry, sampleAddEntry] ∧
    (∀ e ∈ [sampleCreateEntry, sampleAddEntry], e.timestamp ≤ sampleAddEntry.timestamp) ∧
    (∀ e ∈ [sampleCreateEntry, sampleAddEntry], sampleCreateEntry.timestamp ≤ e.timestamp) ∧
    sampleAddEntry.quantityAfter = 8 ∧
    sampleCreateEntry.timestamp = 1000 ∧
    sampleAddEntry.timestamp = 2000 ∧
    (reconstructItemView sampleItemReport).map (fun it => it.quantity) = some 5 ∧
    (reconstructItemView sampleItemReport).map (fun it => it.createdAt) = some 2000 ∧
    (reconstructItemView sampleItemReport).map (fun it => it.updatedAt) = some 1000 ∧
    (reconstructItemView sampleItemReport).map (fun it => it.quantity) ≠
      some sampleAddEntry.quantityAfter ∧
    (reconstructItemView sampleItemReport).map (fun it => it.createdAt) ≠
      some sampleCreateEntry.timestamp ∧
    (reconstructItemView sampleItemReport).map (fun it => it.updatedAt) ≠
      some sampleAddEntry.timestamp := by
  decide

/-- C7 amended: the reconstruction is purely from the snapshot, but
positionally: `quantity` is the `quantityAfter` of the snapshot's FIRST entry
in stored order (the oldest, since reports are archived with the ledger
oldest-first), `createdAt` is the timestamp of the snapshot's LAST entry (the
newest) and `updatedAt` the timestamp of its FIRST entry (the oldest); when
the snapshot is empty, `createdAt` and `updatedAt` fall back to the report's
print timestamp (and `quantity` to 0). -/
theorem reconstruct_item_view_amended (warehouse : Warehouse) (item : Item)
    (now : Int) (hid : item.id ≠ "") (hname : item.name ≠ "") :
    (reconstructItemView (handlePrintReportArchive warehouse item now)).map
        (fun it => it.history) = some item.history ∧
    (reconstructItemView (handlePrintReportArchive warehouse item now)).map
        (fun it => it.quantity) =
      some (match item.history.head? with
        | some e => e.quantityAfter
        | none => 0) ∧
    (reconstructItemView (handlePrintReportArchive warehouse item now)).map
        (fun it => it.createdAt) =
      some (match item.history.getLast? with
        | some e => e.timestamp
        | none => now) ∧
    (reconstructItemView (handlePrintReportArchive warehouse item now)).map
        (fun it => it.updatedAt) =
      some (match item.history.head? with
        | some e => e.timestamp
        | none => now) := by
  have h1 : (item.id == "") = false := beq_eq_false_iff_ne.mpr hid
  have h2 : (item.name == "") = false := beq_eq_false_iff_ne.mpr hname
  refine ⟨?_, ?_, ?_, ?_⟩ <;>
    simp only [reconstructItemView, handlePrintReportArchive, h1, h2, Bool.or_self,
      Bool.false_eq_true, if_false, Option.map_some']

/-- C7 amended witness: the amended reconstruction applied to the sample
printed report. -/
theorem reconstruct_item_view_amended_witness :
    (reconstructItemView (handlePrintReportArchive sampleWarehouse sampleItem1 5000)).map
        (fun it => it.history) = some sampleItem1.history ∧
    (reconstructItemView (handlePrintReportArchive sampleWarehouse sampleItem1 5000)).map
        (fun it => it.quantity) =
      some (match sampleItem1.history.head? with
        | some e => e.quantityAfter
        | none => 0) ∧
    (reconstructItemView (handlePrintReportArchive sampleWarehouse sampleItem1 5000)).map
        (fun it => it.createdAt) =
      some (match sampleItem1.history.getLast? with
        | some e => e.timestamp
        | none => (5000 : Int)) ∧
    (reconstructItemView (handlePrintReportArchive sampleWarehouse sampleItem1 5000)).map
        (fun it => it.updatedAt) =
      some (match sampleItem1.history.head? with
        | some e => e.timestamp
        | none => (5000 : Int)) :=
  reconstruct_item_view_amended sampleWarehouse sampleItem1 5000 (by decide) (by decide)

/-- `handleArchiveWarehouse` from the warehouse list page: sets the selected
warehouse's `isArchived` flag (refreshing its `updatedAt`), then batch-updates
every item whose `warehouseId` equals the selected warehouse's id to
`isArchived: true` (the items query filters on `warehouseId` only). -/
def handleArchiveWarehouse (warehouses : List Warehouse) (items : List Item)
    (selectedId : String) (now : Int) : List Warehouse × List Item :=
  (warehouses.map (fun wh =>
      if wh.id == selectedId then { wh with isArchived := true, updatedAt := now } else wh),
   items.map (fun item =>
      if item.warehouseId == selectedId then { item with isArchived := true, updatedAt := now }
      else item))

/-- C8: archiving a warehouse cascades — the selected warehouse's archived
flag is set, every item referencing it (in particular every non-archived one)
becomes archived, and every item of any other warehouse is left exactly as it
was, all within the same logical operation. -/
theorem archive_warehouse_cascades (warehouses : List Warehouse)
    (items : List Item) (selectedId : String) (now : Int) :
    (∀ wh ∈ warehouses, wh.id = selectedId →
      { wh with isArchived := true, updatedAt := now } ∈
        (handleArchiveWarehouse warehouses items selectedId now).1) ∧
    List.Forall₂ (fun before after =>
        (before.warehouseId = selectedId →
          after = { before with isArchived := true, updatedAt := now }) ∧
        (before.warehouseId ≠ selectedId → after = before))
      items (handleArchiveWarehouse warehouses items selectedId now).2 := by
  constructor
  · intro wh hmem heq
    have : ({ wh with isArchived := true, updatedAt := now } : Warehouse) =
        (fun wh => if wh.id == selectedId then
          { wh with isArchived := true, updatedAt := now } else wh) wh := by
      simp [heq]
    rw [handleArchiveWarehouse]
    exact this ▸ List.mem_map_of_mem _ hmem
  · rw [handleArchiveWarehouse]
    rw [List.forall₂_map_right_iff]
    rw [List.forall₂_same]
    intro item hmem
    by_cases h : item.warehouseId = selectedId
    · simp [h]
    · have hb : (item.warehouseId == selectedId) = false := beq_eq_false_iff_ne.mpr h
      simp [hb, h]

/-- C8 witness: archiving "w1" marks the sample warehouse archived and its
item becomes archived. -/
theorem archive_warehouse_cascades_witness :
    ({ sampleWarehouse with isArchived := true, updatedAt := (9000 : Int) } : Warehouse) ∈
      (handleArchiveWarehouse [sampleWarehouse] [sampleItem0] "w1" 9000).1 :=
  (archive_warehouse_cascades [sampleWarehouse] [sampleItem0] "w1" 9000).1
    sampleWarehouse (by decide) (by decide)

/-- `handlePrintWarehouseReport` from the warehouse list page: the
`warehouseItems` local is a hard-coded empty placeholder (the code never
fetches the warehouse's items), so the archived WAREHOUSE report's
`itemsSnapshot` is the empty list. -/
def handlePrintWarehouseReport (warehouseToPrint : Warehouse) (now : Int) :
    ArchivedReport :=
  { id := warehouseToPrint.id ++ "-wh-report-" ++ toString now
    reportType := some .WAREHOUSE
    warehouseId := some warehouseToPrint.id
    warehouseName := some warehouseToPrint.name
    warehouseDescription := warehouseToPrint.description
    itemId := none
    itemName := none
    printedBy := "Admin User"
    printedAt := now
    historySnapshot := none
    itemsSnapshot := some []
    transactionsSnapshot := none
    reportTitleSnapshot := none }

/-- The WAREHOUSE branch of `handlePrintArchivedReport` on the reports page:
when the report is a WAREHOUSE report with a present `itemsSnapshot` (an empty
array passes the JS truthiness guard) and truthy `warehouseId` and
`warehouseName`, it synthesizes a transient warehouse view and renders the
stored items snapshot; `renderNow` is the `new Date()` used for the transient
`createdAt`/`updatedAt`. -/
def reconstructWarehouseView (report : ArchivedReport) (renderNow : Int) :
    Option (Warehouse × List ItemSummary) :=
  match report.reportType, report.itemsSnapshot, report.warehouseId, report.warehouseName with
  | some .WAREHOUSE, some itemsSnap, some wid, some wname =>
    if wid == "" || wname == "" then none
    else some
      ({ id := wid
         name := wname
         description := some (report.warehouseDescription.getD "")
         isArchived := true
         createdAt := renderNow
         updatedAt := renderNow }, itemsSnap)
  | _, _, _, _ => none

/-- C10: a WAREHOUSE report archived via the warehouse list's print action
stores the hard-coded empty `itemsSnapshot`, so every reprint of such a report
renders zero items, regardless of what the warehouse contained at print
time. -/
theorem warehouse_report_snapshot_empty (warehouseToPrint : Warehouse)
    (now renderNow : Int) (hid : warehouseToPrint.id ≠ "")
    (hname : warehouseToPrint.name ≠ "") :
    (handlePrintWarehouseReport warehouseToPrint now).itemsSnapshot = some [] ∧
    (reconstructWarehouseView (handlePrintWarehouseReport warehouseToPrint now)
        renderNow).map (fun v => v.2) = some [] := by
  have h1 : (warehouseToPrint.id == "") = false := beq_eq_false_iff_ne.mpr hid
  have h2 : (warehouseToPrint.name == "") = false := beq_eq_false_iff_ne.mpr hname
  refine ⟨rfl, ?_⟩
  simp only [reconstructWarehouseView, handlePrintWarehouseReport, h1, h2, Bool.or_self,
    Bool.false_eq_true, if_false, Option.map_some']

/-- C10 witness: reprinting the WAREHOUSE report archived for the sample
warehouse renders zero items. -/
theorem warehouse_report_snapshot_empty_witness :
    (handlePrintWarehouseReport sampleWarehouse 7000).itemsSnapshot = some [] ∧
    (reconstructWarehouseView (handlePrintWarehouseReport sampleWarehouse 7000)
        8000).map (fun v => v.2) = some [] :=
  warehouse_report_snapshot_empty sampleWarehouse 7000 8000 (by decide) (by decide)
